import Mathlib

/-
Shallow embedding of the Agriculture backend (src/backend/server.py) for
verification of its specification.  Strings from the Python side are modelled
as `List Char`; Python floats as `ℚ`; datetimes as `ℤ` epoch values; the
external JSON decoder (`json.loads`), the weather HTTP call, the language
model and the document store are modelled as explicit parameters, since they
are external collaborators of the code under study.  Generated `uuid` ids are
omitted (no property concerns them).
-/

namespace Agri

/-! ### Python string primitives -/

/-- Tests whether `needle` is an initial segment of `hay` (both char lists). -/
def listStartsWith : List Char → List Char → Bool
  | [], _ => true
  | _ :: _, [] => false
  | a :: as, b :: bs => a = b && listStartsWith as bs

/-- Auxiliary scan for `str.find`: first index `≥ i` at which `needle` starts. -/
def pyFindAux (needle : List Char) : List Char → Nat → Option Nat
  | [], i => if needle.isEmpty then some i else none
  | c :: rest, i =>
    if listStartsWith needle (c :: rest) then some i
    else pyFindAux needle rest (i + 1)

/-- Python `hay.find(needle)`: index of the first occurrence, `-1` if absent. -/
def pyFind (hay needle : List Char) : ℤ :=
  match pyFindAux needle hay 0 with
  | some i => (i : ℤ)
  | none => -1

/-- Python `hay.find(needle, start)` with a nonnegative `start`. -/
def pyFindFrom (hay needle : List Char) (start : Nat) : ℤ :=
  match pyFindAux needle (hay.drop start) 0 with
  | some i => ((start + i : Nat) : ℤ)
  | none => -1

/-- Normalise one slice bound the way Python does: a negative index counts
from the end, and both directions clamp into `[0, len]`. -/
def pySliceBound (len : Nat) (i : ℤ) : Nat :=
  if i < 0 then (max 0 ((len : ℤ) + i)).toNat else (min i (len : ℤ)).toNat

/-- Python `s[a:b]` on a char list (never raises, whatever the bounds). -/
def pySlice (s : List Char) (a b : ℤ) : List Char :=
  (s.take (pySliceBound s.length b)).drop (pySliceBound s.length a)

/-- Whitespace set stripped by Python `str.strip()` (ASCII part; exotic
Unicode spaces are not produced by any input considered here). -/
def pyIsSpace (c : Char) : Bool :=
  c = ' ' || c = '\t' || c = '\n' || c = '\r' || c = '\x0b' || c = '\x0c'

/-- Python `s.strip()`. -/
def pyStrip (s : List Char) : List Char :=
  ((s.dropWhile pyIsSpace).reverse.dropWhile pyIsSpace).reverse

/-- Python `s.lower()` (ASCII case folding suffices for the crop names). -/
def pyLower (s : String) : String := String.mk (s.data.map Char.toLower)

/-! ### JSON values and the response extractor -/

/-- Parsed JSON values, as delivered by the external decoder. -/
inductive JsonVal where
  | null : JsonVal
  | bool (b : Bool) : JsonVal
  | num (q : ℚ) : JsonVal
  | str (s : String) : JsonVal
  | arr (items : List JsonVal) : JsonVal
  | obj (fields : List (String × JsonVal)) : JsonVal

/-- Abstraction of `json.loads`: a strict decoder returning `none` on any
text that is not valid JSON (the `json.JSONDecodeError` case). -/
def JDecoder : Type := List Char → Option JsonVal

/-- The fence-open marker searched for by every generator: the seven
characters of the string literal used in the source. -/
def fenceOpen : List Char := "```json".data

/-- The fence-close marker: three backquote characters. -/
def fenceClose : List Char := "```".data

/-- The candidate text handed to the JSON decoder: when the fence-open marker
occurs, the slice between the index right after it (`find` result plus 7) and
the next close marker (`find` returning `-1` when absent) is taken and
stripped; otherwise the whole text is handed over unchanged.  Mirrors server
lines 193–198, 356–360 and 444–448. -/
def extractCandidate (text : List Char) : List Char :=
  if pyFind text fenceOpen ≠ -1 then
    let json_start : ℤ := pyFind text fenceOpen + 7
    let json_end : ℤ := pyFindFrom text fenceClose json_start.toNat
    pyStrip (pySlice text json_start json_end)
  else text

/-- The extraction step: decode the candidate text; `none` signals the
recoverable extraction failure that selects the fallback branch. -/
def extract (parse : JDecoder) (text : List Char) : Option JsonVal :=
  parse (extractCandidate text)

/-! ### Numeric helpers and Python-side coercions -/

/-- Round a rational to the nearest integer, ties to the even neighbour, as
Python `round` does on exactly representable values. -/
def roundHalfEven (q : ℚ) : ℤ :=
  let f : ℤ := ⌊q⌋
  let r : ℚ := q - (f : ℚ)
  if r < 1 / 2 then f
  else if 1 / 2 < r then f + 1
  else if 2 ∣ f then f else f + 1

/-- Python `round(x, 2)` on the rational model of a float. -/
def pyRound2 (q : ℚ) : ℚ := ((roundHalfEven (q * 100) : ℤ) : ℚ) / 100

/-- Python `data.get(key, default)`: attribute lookup on a parsed value.  The
call raises `AttributeError` (escaping the `json.JSONDecodeError` handler and
hitting the generic 500 handler) unless the value is an object. -/
def dictGetD (j : JsonVal) (key : String) (dflt : JsonVal) : Except Unit JsonVal :=
  match j with
  | .obj fields => .ok ((fields.lookup key).getD dflt)
  | _ => .error ()

/-- Coercion applied when a parsed value enters Python arithmetic
(multiplication by a float): numbers pass through, booleans count as 0/1,
anything else raises `TypeError`. -/
def pyArithNum : JsonVal → Except Unit ℚ
  | .num q => .ok q
  | .bool b => .ok (if b then 1 else 0)
  | _ => .error ()

/-- Pydantic validation of a float field: numbers and booleans are accepted;
other shapes raise `ValidationError` at record construction.  (Pydantic also
coerces numeric strings; no property here depends on that corner.) -/
def pydanticFloat : JsonVal → Except Unit ℚ
  | .num q => .ok q
  | .bool b => .ok (if b then 1 else 0)
  | _ => .error ()

/-- Pydantic validation of a str field (non-strings are rejected; numeric
coercion to text is again immaterial to every property below). -/
def pydanticStr : JsonVal → Except Unit String
  | .str s => .ok s
  | _ => .error ()

/-- Pydantic validation of a `List[str]` field. -/
def pydanticStrList : JsonVal → Except Unit (List String)
  | .arr items => items.mapM pydanticStr
  | _ => .error ()

/-! ### Data model (deterministic fields of the pydantic records) -/

/-- HTTP error surfaced to the client (`HTTPException`). -/
structure HTTPError where
  status : Nat
  detail : String
  deriving DecidableEq

/-- Rendering of an exception inside a later format string (`str(e)`). -/
def httpErrorStr (e : HTTPError) : String :=
  toString e.status ++ ": " ++ e.detail

/-- WeatherData record (id and creation timestamp omitted). -/
structure WeatherData where
  location : String
  temperature : ℚ
  humidity : ℚ
  description : String
  deriving DecidableEq

/-- Body of a successful weather-service response, after field projection. -/
structure WeatherPayload where
  temp : ℚ
  humidity : ℚ
  description : String
  deriving DecidableEq

/-- CropSuggestion record (id omitted; the source record has no timestamp). -/
structure CropSuggestion where
  crop_name : String
  reason : String
  season : String
  location : String
  weather_condition : String
  deriving DecidableEq

/-- AI assistant Q&A record. -/
structure AIQuery where
  question : String
  answer : String
  timestamp : ℤ
  deriving DecidableEq

/-- YieldPrediction record (id omitted; the free-form `factors` map holds
only prompt metadata echoed back and is referenced by no property). -/
structure YieldPrediction where
  crop_name : String
  predicted_yield : ℚ
  confidence_score : ℚ
  location : String
  prediction_date : ℤ
  deriving DecidableEq

/-- SoilAnalysis record (id omitted). -/
structure SoilAnalysis where
  ph_level : ℚ
  nitrogen : ℚ
  phosphorus : ℚ
  potassium : ℚ
  organic_matter : ℚ
  soil_type : String
  health_score : ℚ
  recommendations : List String
  location : String
  analysis_date : ℤ
  deriving DecidableEq

/-- Yield-prediction request body. -/
structure YieldRequest where
  crop_name : String
  location : String
  field_size : ℚ
  deriving DecidableEq

/-- Soil-analysis request body. -/
structure SoilRequest where
  ph_level : ℚ
  nitrogen : ℚ
  phosphorus : ℚ
  potassium : ℚ
  organic_matter : ℚ
  soil_type : String
  location : String
  deriving DecidableEq

/-! ### Handlers

Each handler is a pure function of its request, of the outcomes of its
external collaborators (weather call, model output text, JSON decoder) and of
the clock; it returns the ordered list of documents inserted into its
collection together with the HTTP outcome. -/

/-- The weather endpoint, lines 137–161.  A non-200 upstream status raises a
400 inside the `try`, which the generic handler re-wraps as a 500; a network
failure is likewise wrapped.  The snapshot is stored on success. -/
def get_weather (upstream : Except String (Nat × WeatherPayload)) (location : String) :
    List WeatherData × Except HTTPError WeatherData :=
  match upstream with
  | .error e => ([], .error ⟨500, "Error fetching weather: " ++ e⟩)
  | .ok (status, p) =>
    if status ≠ 200 then
      ([], .error ⟨500, "Error fetching weather: " ++
        httpErrorStr ⟨400, "Weather data not found"⟩⟩)
    else
      let weather : WeatherData := ⟨location, p.temp, p.humidity, p.description⟩
      ([weather], .ok weather)

/-- The canned suggestion built when extraction fails, lines 216–224.  Its
`reason` is the `suggestions_text` variable, which at that point holds the
already-sliced candidate rather than the original model output. -/
def fallbackSuggestion (location description : String) (candidate : List Char) :
    CropSuggestion :=
  { crop_name := "General crops suitable for current weather"
  , reason := candidate.asString
  , season := "Current season"
  , location := location
  , weather_condition := description }

/-- Python iteration over the parsed value (`for item in suggestions_data`):
arrays yield their items, dicts their keys, strings their characters;
numbers, booleans and null raise `TypeError`. -/
def iterItems : JsonVal → Except Unit (List JsonVal)
  | .arr items => .ok items
  | .obj fields => .ok (fields.map fun kv => JsonVal.str kv.1)
  | .str s => .ok (s.data.map fun c => JsonVal.str (String.mk [c]))
  | _ => .error ()

/-- Build one CropSuggestion from a parsed item, lines 203–209: each field is
`item.get(key, '')` validated as a str by pydantic. -/
def suggOfItem (location description : String) (item : JsonVal) :
    Except Unit CropSuggestion := do
  let crop ← pydanticStr (← dictGetD item "crop_name" (.str ""))
  let reason ← pydanticStr (← dictGetD item "reason" (.str ""))
  let season ← pydanticStr (← dictGetD item "season" (.str ""))
  .ok ⟨crop, reason, season, location, description⟩

/-- The suggestion loop, lines 201–212: each built record is appended to the
result and inserted into the store in the same iteration, so a failure partway
leaves the earlier inserts in place. -/
def suggestionsLoop (location description : String) :
    List JsonVal → List CropSuggestion →
      List CropSuggestion × Except Unit (List CropSuggestion)
  | [], acc => (acc, .ok acc)
  | item :: rest, acc =>
    match suggOfItem location description item with
    | .error _ => (acc, .error ())
    | .ok s => suggestionsLoop location description rest (acc ++ [s])

/-- The crop-suggestions endpoint, lines 163–227, given the outcome of its
inner weather call and the model's output text. -/
def get_crop_suggestions (parse : JDecoder) (location : String)
    (weather : Except HTTPError WeatherData) (aiText : List Char) :
    List CropSuggestion × Except HTTPError (List CropSuggestion) :=
  match weather with
  | .error e =>
    ([], .error ⟨500, "Error generating crop suggestions: " ++ httpErrorStr e⟩)
  | .ok w =>
    match extract parse aiText with
    | some data =>
      match iterItems data with
      | .error _ => ([], .error ⟨500, "Error generating crop suggestions: TypeError"⟩)
      | .ok items =>
        match suggestionsLoop location w.description items [] with
        | (acc, .error _) =>
          (acc, .error ⟨500, "Error generating crop suggestions: AttributeError"⟩)
        | (acc, .ok ss) => (acc, .ok ss)
    | none =>
      ([], .ok [fallbackSuggestion location w.description (extractCandidate aiText)])

/-- Per-crop base yields of the fallback table, lines 377–380. -/
def base_yields : List (String × ℚ) :=
  [("corn", 3.2), ("wheat", 2.8), ("soybeans", 2.1), ("rice", 4.5),
   ("tomatoes", 15.0), ("potatoes", 20.0), ("cotton", 0.8)]

/-- Deterministic yield fallback, lines 375–383: total yield is the base for
the lowercased crop name (default 2.5) times the field size; confidence 70. -/
def yield_fallback (crop_name : String) (field_size : ℚ) : ℚ × ℚ :=
  (((base_yields.lookup (pyLower crop_name)).getD 2.5) * field_size, 70)

/-- The yield-prediction endpoint, lines 311–403; the record stores the total
rounded to two decimals and is inserted in every non-error path. -/
def predict_yield (parse : JDecoder) (req : YieldRequest)
    (weather : Except HTTPError WeatherData) (aiText : List Char) (now : ℤ) :
    List YieldPrediction × Except HTTPError YieldPrediction :=
  match weather with
  | .error e => ([], .error ⟨500, "Error predicting yield: " ++ httpErrorStr e⟩)
  | .ok _w =>
    let computed : Except Unit (ℚ × ℚ) :=
      match extract parse aiText with
      | some data => do
        let ypa ← pyArithNum (← dictGetD data "predicted_yield_per_acre" (.num 2.5))
        let conf ← pydanticFloat (← dictGetD data "confidence_score" (.num 75.0))
        .ok (ypa * req.field_size, conf)
      | none => .ok (yield_fallback req.crop_name req.field_size)
    match computed with
    | .error _ => ([], .error ⟨500, "Error predicting yield: type error"⟩)
    | .ok tc =>
      let prediction : YieldPrediction :=
        ⟨req.crop_name, pyRound2 tc.1, tc.2, req.location, now⟩
      ([prediction], .ok prediction)

/-! ### Soil analysis -/

/-- Advisory string appended by the acidic-pH rule. -/
def recPhAcidic : String := "Soil is acidic. Add lime to raise pH to 6.0-7.0 range."

/-- Advisory string appended by the alkaline-pH rule. -/
def recPhAlkaline : String := "Soil is alkaline. Consider sulfur amendment to lower pH."

/-- Advisory string appended by the optimal-pH rule. -/
def recPhOptimal : String := "pH level is optimal for most crops."

/-- Advisory string appended by the low-nitrogen rule. -/
def recNLow : String :=
  "Nitrogen deficiency detected. Apply nitrogen-rich fertilizer or compost."

/-- Advisory string appended by the high-nitrogen rule. -/
def recNHigh : String := "High nitrogen levels. Monitor to prevent nutrient runoff."

/-- Advisory string appended by the low-phosphorus rule. -/
def recPLow : String := "Phosphorus is low. Apply bone meal or phosphate fertilizer."

/-- Advisory string appended by the high-phosphorus rule. -/
def recPHigh : String := "Phosphorus levels are excellent."

/-- Advisory string appended by the low-potassium rule. -/
def recKLow : String := "Potassium deficiency. Apply potash or wood ash."

/-- Advisory string appended by the high-potassium rule. -/
def recKHigh : String := "Good potassium levels for strong plant growth."

/-- Advisory string appended by the low-organic-matter rule. -/
def recOMLow : String := "Low organic matter. Add compost, manure, or cover crops."

/-- Advisory string appended by the high-organic-matter rule. -/
def recOMHigh : String := "Excellent organic matter content supports soil health."

/-- Soil fallback, pH block (lines 459–468): score starts at 50 and the
recommendation list empty; exactly one pH branch fires. -/
def soilStage1 (req : SoilRequest) : ℚ × List String :=
  if req.ph_level < 6.0 then (50 - 15, [recPhAcidic])
  else if req.ph_level > 7.5 then (50 - 10, [recPhAlkaline])
  else (50 + 15, [recPhOptimal])

/-- Soil fallback, nitrogen block (lines 471–476). -/
def soilStage2 (req : SoilRequest) : ℚ × List String :=
  if req.nitrogen < 20 then
    ((soilStage1 req).1 - 10, (soilStage1 req).2 ++ [recNLow])
  else if req.nitrogen > 50 then
    ((soilStage1 req).1 + 10, (soilStage1 req).2 ++ [recNHigh])
  else soilStage1 req

/-- Soil fallback, phosphorus block (lines 478–483). -/
def soilStage3 (req : SoilRequest) : ℚ × List String :=
  if req.phosphorus < 15 then
    ((soilStage2 req).1 - 8, (soilStage2 req).2 ++ [recPLow])
  else if req.phosphorus > 50 then
    ((soilStage2 req).1 + 8, (soilStage2 req).2 ++ [recPHigh])
  else soilStage2 req

/-- Soil fallback, potassium block (lines 485–490). -/
def soilStage4 (req : SoilRequest) : ℚ × List String :=
  if req.potassium < 100 then
    ((soilStage3 req).1 - 12, (soilStage3 req).2 ++ [recKLow])
  else if req.potassium > 200 then
    ((soilStage3 req).1 + 12, (soilStage3 req).2 ++ [recKHigh])
  else soilStage3 req

/-- Soil fallback, organic-matter block (lines 493–498). -/
def soilStage5 (req : SoilRequest) : ℚ × List String :=
  if req.organic_matter < 2 then
    ((soilStage4 req).1 - 15, (soilStage4 req).2 ++ [recOMLow])
  else if req.organic_matter > 4 then
    ((soilStage4 req).1 + 20, (soilStage4 req).2 ++ [recOMHigh])
  else soilStage4 req

/-- Deterministic soil fallback, lines 454–501: the nutrient blocks run in
order and the final score is clamped into `[0, 100]` (line 501). -/
def soilFallback (req : SoilRequest) : ℚ × List String :=
  (max 0 (min 100 (soilStage5 req).1), (soilStage5 req).2)

/-- The soil-analysis endpoint, lines 405–520.  On extraction success the
score and recommendations come from the parsed object with defaults 0 and [];
the record is inserted in every non-error path. -/
def analyze_soil (parse : JDecoder) (req : SoilRequest) (aiText : List Char)
    (now : ℤ) : List SoilAnalysis × Except HTTPError SoilAnalysis :=
  let computed : Except Unit (ℚ × List String) :=
    match extract parse aiText with
    | some data => do
      let hs ← pydanticFloat (← dictGetD data "health_score" (.num 0))
      let recs ← pydanticStrList (← dictGetD data "detailed_recommendations" (.arr []))
      .ok (hs, recs)
    | none => .ok (soilFallback req)
  match computed with
  | .error _ => ([], .error ⟨500, "Error analyzing soil: type error"⟩)
  | .ok hr =>
    let analysis : SoilAnalysis :=
      ⟨req.ph_level, req.nitrogen, req.phosphorus, req.potassium,
       req.organic_matter, req.soil_type, hr.1, hr.2, req.location, now⟩
    ([analysis], .ok analysis)

/-! ### Market prices -/

/-- Static commodity table, lines 272–281: base price, unit, trend. -/
structure CommodityInfo where
  base_price : ℚ
  unit : String
  trend : String
  deriving DecidableEq

/-- The COMMODITY_PRICES table. -/
def COMMODITY_PRICES : List (String × CommodityInfo) :=
  [("corn", ⟨5.85, "per bushel", "stable"⟩),
   ("wheat", ⟨7.20, "per bushel", "rising"⟩),
   ("soybeans", ⟨13.45, "per bushel", "falling"⟩),
   ("rice", ⟨14.50, "per cwt", "stable"⟩),
   ("cotton", ⟨0.68, "per lb", "rising"⟩),
   ("tomatoes", ⟨1.25, "per lb", "stable"⟩),
   ("potatoes", ⟨0.55, "per lb", "falling"⟩),
   ("onions", ⟨0.45, "per lb", "stable"⟩)]

/-- Values passed as keyword arguments to a pydantic constructor. -/
inductive PyVal where
  | num (q : ℚ) : PyVal
  | str (s : String) : PyVal
  deriving DecidableEq

/-- MarketPrice record, lines 77–88 (defaulted constant fields such as the
currency labels and the 83.5 exchange rate are omitted as inert). -/
structure MarketPrice where
  commodity : String
  current_price_usd : ℚ
  current_price_inr : ℚ
  unit : String
  change_percent : ℚ
  market_trend : String
  deriving DecidableEq

/-- Read a required pydantic float field from the keyword arguments: a
missing key raises `ValidationError`. -/
def kwNum (kw : List (String × PyVal)) (key : String) : Except Unit ℚ :=
  match kw.lookup key with
  | some (.num q) => .ok q
  | _ => .error ()

/-- Read a required pydantic str field from the keyword arguments. -/
def kwStr (kw : List (String × PyVal)) (key : String) : Except Unit String :=
  match kw.lookup key with
  | some (.str s) => .ok s
  | _ => .error ()

/-- Read a defaulted pydantic str field from the keyword arguments. -/
def kwStrD (kw : List (String × PyVal)) (key : String) (dflt : String) :
    Except Unit String :=
  match kw.lookup key with
  | some (.str s) => .ok s
  | some _ => .error ()
  | none => .ok dflt

/-- Pydantic construction of `MarketPrice` from keyword arguments: each
declared field is looked up by name (defaults applying where declared),
unknown keyword arguments are silently ignored, and a missing required field
raises `ValidationError`. -/
def mkMarketPrice (kw : List (String × PyVal)) : Except Unit MarketPrice := do
  let commodity ← kwStr kw "commodity"
  let usd ← kwNum kw "current_price_usd"
  let inr ← kwNum kw "current_price_inr"
  let unit ← kwStrD kw "unit" "per bushel"
  let change ← kwNum kw "change_percent"
  let trend ← kwStr kw "market_trend"
  .ok ⟨commodity, usd, inr, unit, change, trend⟩

/-- The keyword arguments actually passed at the construction site on lines
295–301: note the key `current_price`, which matches no declared field, while
`current_price_usd` and `current_price_inr` are not passed. -/
def marketPriceCallKwargs (commodity : String) (current_price : ℚ) (unit : String)
    (change_percent : ℚ) (market_trend : String) : List (String × PyVal) :=
  [("commodity", .str commodity),
   ("current_price", .num current_price),
   ("unit", .str unit),
   ("change_percent", .num change_percent),
   ("market_trend", .str market_trend)]

/-- The per-commodity loop of lines 288–305, driven by the sampled
fluctuations: compute the simulated price and change, construct the record,
append and insert it; an exception aborts the loop (earlier inserts stand). -/
def marketLoop (fluct : String → ℚ) :
    List (String × CommodityInfo) → List MarketPrice →
      List MarketPrice × Except Unit (List MarketPrice)
  | [], acc => (acc, .ok acc)
  | (name, info) :: rest, acc =>
    let fluctuation := fluct name
    let current_price := info.base_price * (1 + fluctuation)
    let change_percent := fluctuation * 100
    match mkMarketPrice (marketPriceCallKwargs name (pyRound2 current_price)
        info.unit (pyRound2 change_percent) info.trend) with
    | .error _ => (acc, .error ())
    | .ok mp => marketLoop fluct rest (acc ++ [mp])

/-- The market-prices endpoint, lines 283–309; `fluct` models the value
`random.uniform(-0.15, 0.15)` sampled for each commodity. -/
def get_market_prices (fluct : String → ℚ) :
    List MarketPrice × Except HTTPError (List MarketPrice) :=
  match marketLoop fluct COMMODITY_PRICES [] with
  | (acc, .ok prices) => (acc, .ok prices)
  | (acc, .error _) =>
    (acc, .error ⟨500, "Error fetching market prices: ValidationError"⟩)

/-! ### Document-store reads -/

/-- Model of `find().sort(key, -1).limit(n)`: the documents in descending key
order, truncated to the first `n`. -/
def mongoFindSortDescLimit (key : α → ℤ) (docs : List α) (n : Nat) : List α :=
  (docs.mergeSort (fun a b => decide (key b ≤ key a))).take n

/-- The recent-queries endpoint, lines 266–269. -/
def get_recent_queries (docs : List AIQuery) : List AIQuery :=
  mongoFindSortDescLimit AIQuery.timestamp docs 10

/-- The yield-history endpoint, lines 522–529. -/
def get_yield_history (docs : List YieldPrediction) : List YieldPrediction :=
  mongoFindSortDescLimit YieldPrediction.prediction_date docs 20

/-- The soil-history endpoint, lines 531–538. -/
def get_soil_history (docs : List SoilAnalysis) : List SoilAnalysis :=
  mongoFindSortDescLimit SoilAnalysis.analysis_date docs 20

/-! ### Concrete decoder behaviours and sample data used in instantiations -/

/-- Decoder behaviour on model output that is not valid JSON anywhere. -/
def parseNone : JDecoder := fun _ => none

/-- Decoder behaviour for a model output whose embedded JSON is the object
with field a = 1. -/
def parseDemoA : JDecoder := fun s =>
  if s = "\x7b\"a\": 1\x7d".data then some (.obj [("a", .num 1)]) else none

/-- Decoder behaviour for the model output consisting of the array [1]. -/
def parseBracket : JDecoder := fun s =>
  if s = "[1]".data then some (.arr [.num 1]) else none

/-- Decoder behaviour for a model output whose JSON object carries the
out-of-range health score 150. -/
def parseScore150 : JDecoder := fun _ =>
  some (.obj [("health_score", .num 150)])

/-- Sample weather snapshot. -/
def weatherDemo : WeatherData := ⟨"Delhi", 30, 60, "clear sky"⟩

/-- Sample soil request (the worked example of the rule table). -/
def soilReqDemo : SoilRequest := ⟨6.5, 25, 20, 150, 3, "loam", "Delhi"⟩

/-- Sample yield request (the worked example of the fallback table). -/
def yieldReqDemo : YieldRequest := ⟨"corn", "Delhi", 10⟩

/-- Model output with a fence-open marker and no close marker after it. -/
def tUnmatched : List Char := "```json[1]2".data

/-! ### Helper lemmas -/

/-- Slicing from just after the fence-open marker up to the stated end index
recovers exactly the embedded payload. -/
theorem pySlice_fenced (pre payload post : List Char) :
    pySlice (pre ++ fenceOpen ++ payload ++ fenceClose ++ post)
      ((pre.length : ℤ) + 7) (((pre.length + 7 + payload.length : ℕ) : ℤ)) = payload := by
  have hfo : fenceOpen.length = 7 := rfl
  have hfc : fenceClose.length = 3 := rfl
  have hlen : (pre ++ fenceOpen ++ payload ++ fenceClose ++ post).length
      = pre.length + 7 + payload.length + 3 + post.length := by
    simp only [List.length_append, hfo, hfc]
  unfold pySlice
  rw [hlen]
  have hb : pySliceBound (pre.length + 7 + payload.length + 3 + post.length)
      (((pre.length + 7 + payload.length : ℕ) : ℤ)) = pre.length + 7 + payload.length := by
    unfold pySliceBound
    split_ifs <;> omega
  have ha : pySliceBound (pre.length + 7 + payload.length + 3 + post.length)
      ((pre.length : ℤ) + 7) = pre.length + 7 := by
    unfold pySliceBound
    split_ifs <;> omega
  rw [hb, ha]
  have e1 : pre ++ fenceOpen ++ payload ++ fenceClose ++ post
      = ((pre ++ fenceOpen) ++ payload) ++ (fenceClose ++ post) := by
    simp [List.append_assoc]
  rw [e1]
  have e2 : List.take (pre.length + 7 + payload.length)
      (((pre ++ fenceOpen) ++ payload) ++ (fenceClose ++ post))
      = (pre ++ fenceOpen) ++ payload := by
    refine List.take_left' ?_
    simp only [List.length_append, hfo]
  rw [e2]
  refine List.drop_left' ?_
  simp only [List.length_append, hfo]

/-- With the first fence-open occurrence at the boundary and the next close
right after the payload, the candidate is the stripped payload. -/
theorem extractCandidate_fenced (pre payload post : List Char)
    (hopen : pyFind (pre ++ fenceOpen ++ payload ++ fenceClose ++ post) fenceOpen
      = (pre.length : ℤ))
    (hclose : pyFindFrom (pre ++ fenceOpen ++ payload ++ fenceClose ++ post) fenceClose
      (pre.length + 7) = ((pre.length + 7 + payload.length : ℕ) : ℤ)) :
    extractCandidate (pre ++ fenceOpen ++ payload ++ fenceClose ++ post)
      = pyStrip payload := by
  unfold extractCandidate
  have hne : (pre.length : ℤ) ≠ -1 := by omega
  have htn : ((pre.length : ℤ) + 7).toNat = pre.length + 7 := by omega
  simp only [hopen, htn, hclose, if_pos hne]
  rw [pySlice_fenced]

/-- The soil-fallback score is the clamp of something, hence within bounds. -/
theorem soilFallback_score_bounds (req : SoilRequest) :
    0 ≤ (soilFallback req).1 ∧ (soilFallback req).1 ≤ 100 := by
  simp only [soilFallback]
  exact ⟨le_max_left _ _, max_le (by norm_num) (min_le_left _ _)⟩

/-- Unfolding of the soil endpoint on the extraction-failure path. -/
theorem analyze_soil_fallback (parse : JDecoder) (req : SoilRequest)
    (t : List Char) (now : ℤ) (hfail : extract parse t = none) :
    analyze_soil parse req t now =
      ([⟨req.ph_level, req.nitrogen, req.phosphorus, req.potassium,
          req.organic_matter, req.soil_type, (soilFallback req).1,
          (soilFallback req).2, req.location, now⟩],
        .ok ⟨req.ph_level, req.nitrogen, req.phosphorus, req.potassium,
          req.organic_matter, req.soil_type, (soilFallback req).1,
          (soilFallback req).2, req.location, now⟩) := by
  unfold analyze_soil
  rw [hfail]

/-- Unfolding of the yield endpoint on the extraction-failure path. -/
theorem predict_yield_fallback (parse : JDecoder) (req : YieldRequest)
    (w : WeatherData) (t : List Char) (now : ℤ)
    (hfail : extract parse t = none) :
    predict_yield parse req (.ok w) t now =
      ([⟨req.crop_name, pyRound2 (yield_fallback req.crop_name req.field_size).1,
          (yield_fallback req.crop_name req.field_size).2, req.location, now⟩],
        .ok ⟨req.crop_name, pyRound2 (yield_fallback req.crop_name req.field_size).1,
          (yield_fallback req.crop_name req.field_size).2, req.location, now⟩) := by
  unfold predict_yield
  rw [hfail]

/-- Unfolding of the crop-suggestions endpoint on the extraction-failure
path: the fallback suggestion is returned and nothing is inserted. -/
theorem crop_suggestions_fallback (parse : JDecoder) (location : String)
    (w : WeatherData) (t : List Char) (hfail : extract parse t = none) :
    get_crop_suggestions parse location (.ok w) t =
      ([], .ok [fallbackSuggestion location w.description (extractCandidate t)]) := by
  unfold get_crop_suggestions
  rw [hfail]

/-- If every parsed item maps to a suggestion, the loop inserts and returns
exactly those suggestions in order. -/
theorem suggestionsLoop_of_mapM (location description : String) :
    ∀ (items : List JsonVal) (ss acc : List CropSuggestion),
      items.mapM (suggOfItem location description) = Except.ok ss →
      suggestionsLoop location description items acc = (acc ++ ss, .ok (acc ++ ss)) := by
  intro items
  induction items with
  | nil =>
    intro ss acc h
    simp only [List.mapM_nil, pure, Except.pure] at h
    cases h
    simp [suggestionsLoop]
  | cons item rest ih =>
    intro ss acc h
    rw [List.mapM_cons] at h
    cases hitem : suggOfItem location description item with
    | error e =>
      rw [hitem] at h
      simp only [Bind.bind, Except.bind] at h
      cases h
    | ok s =>
      rw [hitem] at h
      simp only [Bind.bind, Except.bind] at h
      cases hrest : rest.mapM (suggOfItem location description) with
      | error e =>
        rw [hrest] at h
        simp only [Bind.bind, Except.bind] at h
        cases h
      | ok ss' =>
        rw [hrest] at h
        simp only [Bind.bind, Except.bind, pure, Except.pure, Except.ok.injEq] at h
        subst h
        simp only [suggestionsLoop, hitem]
        rw [ih ss' (acc ++ [s]) hrest]
        simp [List.append_assoc]

/-- Specification of the limited descending-sort read: at most `n` results,
sorted by descending key, and together with the unreturned rest they permute
the store, every returned key dominating every unreturned one. -/
theorem mongoFindSortDescLimit_spec {α : Type} (key : α → ℤ) (docs : List α)
    (n : Nat) :
    (mongoFindSortDescLimit key docs n).length ≤ n ∧
    (mongoFindSortDescLimit key docs n).Pairwise (fun a b => key b ≤ key a) ∧
    ∃ rest : List α, (mongoFindSortDescLimit key docs n ++ rest).Perm docs ∧
      ∀ y ∈ rest, ∀ x ∈ mongoFindSortDescLimit key docs n, key y ≤ key x := by
  have htrans : ∀ a b c : α, (decide (key b ≤ key a)) = true →
      (decide (key c ≤ key b)) = true → (decide (key c ≤ key a)) = true := by
    intro a b c h1 h2
    simp only [decide_eq_true_eq] at h1 h2 ⊢
    exact le_trans h2 h1
  have htotal : ∀ a b : α,
      (decide (key b ≤ key a) || decide (key a ≤ key b)) = true := by
    intro a b
    simp only [Bool.or_eq_true, decide_eq_true_eq]
    exact le_total (key b) (key a)
  have hsorted : (docs.mergeSort (fun a b => decide (key b ≤ key a))).Pairwise
      (fun a b => key b ≤ key a) := by
    have h := List.sorted_mergeSort htrans htotal docs
    exact h.imp (by intro a b hab; simpa using hab)
  refine ⟨List.length_take_le _ _,
    hsorted.sublist (List.take_sublist _ _),
    (docs.mergeSort (fun a b => decide (key b ≤ key a))).drop n, ?_, ?_⟩
  · rw [mongoFindSortDescLimit, List.take_append_drop]
    exact List.mergeSort_perm docs _
  · intro y hy x hx
    have hall : (docs.mergeSort (fun a b => decide (key b ≤ key a))).Pairwise
        (fun a b => key b ≤ key a) := hsorted
    rw [← List.take_append_drop n (docs.mergeSort (fun a b => decide (key b ≤ key a)))]
      at hall
    exact (List.pairwise_append.mp hall).2.2 x hx y hy

/-- A slice upper bound of `-1` is the same as bounding at length minus 1. -/
theorem pySliceBound_neg_one (len : Nat) :
    pySliceBound len (-1) = pySliceBound len ((len : ℤ) - 1) := by
  unfold pySliceBound
  split_ifs <;> omega

/-! ### The specification's soil rule table, restated for comparison -/

/-- Rule table, pH row: below 6.0 subtract 15, above 7.5 subtract 10,
otherwise add 15. -/
def specPhDelta (ph : ℚ) : ℚ :=
  if ph < 6.0 then -15 else if ph > 7.5 then -10 else 15

/-- Rule table, nitrogen row: below 20 subtract 10, above 50 add 10. -/
def specNDelta (n : ℚ) : ℚ :=
  if n < 20 then -10 else if n > 50 then 10 else 0

/-- Rule table, phosphorus row: below 15 subtract 8, above 50 add 8. -/
def specPDelta (p : ℚ) : ℚ :=
  if p < 15 then -8 else if p > 50 then 8 else 0

/-- Rule table, potassium row: below 100 subtract 12, above 200 add 12. -/
def specKDelta (k : ℚ) : ℚ :=
  if k < 100 then -12 else if k > 200 then 12 else 0

/-- Rule table, organic-matter row: below 2 subtract 15, above 4 add 20. -/
def specOMDelta (om : ℚ) : ℚ :=
  if om < 2 then -15 else if om > 4 then 20 else 0

/-- Appending one advisory to a nonempty list keeps the head and adds one to
the length. -/
theorem append_head_len (l : List String) (r : String) (h : 1 ≤ l.length) :
    (l ++ [r]).head? = l.head? ∧ (l ++ [r]).length = l.length + 1 := by
  cases l with
  | nil => simp at h
  | cons a t => simp

/-- The pH block realises the pH row of the rule table. -/
theorem soilStage1_fst (req : SoilRequest) :
    (soilStage1 req).1 = 50 + specPhDelta req.ph_level := by
  unfold soilStage1 specPhDelta
  split_ifs <;> norm_num

/-- The nitrogen block realises the nitrogen row of the rule table. -/
theorem soilStage2_fst (req : SoilRequest) :
    (soilStage2 req).1 = (soilStage1 req).1 + specNDelta req.nitrogen := by
  unfold soilStage2 specNDelta
  split_ifs <;> ring

/-- The phosphorus block realises the phosphorus row of the rule table. -/
theorem soilStage3_fst (req : SoilRequest) :
    (soilStage3 req).1 = (soilStage2 req).1 + specPDelta req.phosphorus := by
  unfold soilStage3 specPDelta
  split_ifs <;> ring

/-- The potassium block realises the potassium row of the rule table. -/
theorem soilStage4_fst (req : SoilRequest) :
    (soilStage4 req).1 = (soilStage3 req).1 + specKDelta req.potassium := by
  unfold soilStage4 specKDelta
  split_ifs <;> ring

/-- The organic-matter block realises the organic-matter row of the table. -/
theorem soilStage5_fst (req : SoilRequest) :
    (soilStage5 req).1 = (soilStage4 req).1 + specOMDelta req.organic_matter := by
  unfold soilStage5 specOMDelta
  split_ifs <;> ring

/-- The pH block emits exactly one advisory. -/
theorem soilStage1_snd (req : SoilRequest) :
    (soilStage1 req).2.length = 1 ∧
    ((soilStage1 req).2.head? = some recPhAcidic ∨
      (soilStage1 req).2.head? = some recPhAlkaline ∨
      (soilStage1 req).2.head? = some recPhOptimal) := by
  unfold soilStage1
  split_ifs <;> simp

/-- The nitrogen block keeps the head advisory and adds at most one. -/
theorem soilStage2_snd (req : SoilRequest) (h : 1 ≤ (soilStage1 req).2.length) :
    (soilStage2 req).2.head? = (soilStage1 req).2.head? ∧
    (soilStage1 req).2.length ≤ (soilStage2 req).2.length ∧
    (soilStage2 req).2.length ≤ (soilStage1 req).2.length + 1 := by
  unfold soilStage2
  split_ifs
  · exact ⟨(append_head_len _ _ h).1, by simp⟩
  · exact ⟨(append_head_len _ _ h).1, by simp⟩
  · exact ⟨rfl, le_refl _, by omega⟩

/-- The phosphorus block keeps the head advisory and adds at most one. -/
theorem soilStage3_snd (req : SoilRequest) (h : 1 ≤ (soilStage2 req).2.length) :
    (soilStage3 req).2.head? = (soilStage2 req).2.head? ∧
    (soilStage2 req).2.length ≤ (soilStage3 req).2.length ∧
    (soilStage3 req).2.length ≤ (soilStage2 req).2.length + 1 := by
  unfold soilStage3
  split_ifs
  · exact ⟨(append_head_len _ _ h).1, by simp⟩
  · exact ⟨(append_head_len _ _ h).1, by simp⟩
  · exact ⟨rfl, le_refl _, by omega⟩

/-- The potassium block keeps the head advisory and adds at most one. -/
theorem soilStage4_snd (req : SoilRequest) (h : 1 ≤ (soilStage3 req).2.length) :
    (soilStage4 req).2.head? = (soilStage3 req).2.head? ∧
    (soilStage3 req).2.length ≤ (soilStage4 req).2.length ∧
    (soilStage4 req).2.length ≤ (soilStage3 req).2.length + 1 := by
  unfold soilStage4
  split_ifs
  · exact ⟨(append_head_len _ _ h).1, by simp⟩
  · exact ⟨(append_head_len _ _ h).1, by simp⟩
  · exact ⟨rfl, le_refl _, by omega⟩

/-- The organic-matter block keeps the head advisory and adds at most one. -/
theorem soilStage5_snd (req : SoilRequest) (h : 1 ≤ (soilStage4 req).2.length) :
    (soilStage5 req).2.head? = (soilStage4 req).2.head? ∧
    (soilStage4 req).2.length ≤ (soilStage5 req).2.length ∧
    (soilStage5 req).2.length ≤ (soilStage4 req).2.length + 1 := by
  unfold soilStage5
  split_ifs
  · exact ⟨(append_head_len _ _ h).1, by simp⟩
  · exact ⟨(append_head_len _ _ h).1, by simp⟩
  · exact ⟨rfl, le_refl _, by omega⟩

/-! ### Claim theorems -/

/-- C1: in the soil-analysis fallback path the health score equals 50 plus
the mutually-exclusive per-nutrient deltas of the rule table (pH −15/−10/+15,
N −10/+10, P −8/+8, K −12/+12, organic −15/+20), clamped to [0, 100]; and on
the worked example pH=6.5, N=25, P=20, K=150, organic=3.0 the resulting score
is exactly 65. -/
theorem soil_fallback_rule_table (req : SoilRequest) :
    (soilFallback req).1 =
      max 0 (min 100 (50 + specPhDelta req.ph_level + specNDelta req.nitrogen +
        specPDelta req.phosphorus + specKDelta req.potassium +
        specOMDelta req.organic_matter)) ∧
    (soilFallback soilReqDemo).1 = 65 := by
  constructor
  · simp only [soilFallback]
    rw [soilStage5_fst, soilStage4_fst, soilStage3_fst, soilStage2_fst,
      soilStage1_fst]
  · norm_num [soilFallback, soilStage5, soilStage4, soilStage3, soilStage2,
      soilStage1, soilReqDemo, max_def, min_def]

/-- C10: in the soil-analysis fallback path the recommendation list always
starts with exactly one pH advisory (one of the three pH branches fires), the
other nutrients append at most one advisory each, and the list length is
always between 1 and 5. -/
theorem soil_fallback_recommendations_shape (req : SoilRequest) :
    ((soilFallback req).2.head? = some recPhAcidic ∨
      (soilFallback req).2.head? = some recPhAlkaline ∨
      (soilFallback req).2.head? = some recPhOptimal) ∧
    1 ≤ (soilFallback req).2.length ∧ (soilFallback req).2.length ≤ 5 := by
  obtain ⟨h1len, h1head⟩ := soilStage1_snd req
  obtain ⟨h2head, h2lo, h2hi⟩ := soilStage2_snd req (by omega)
  obtain ⟨h3head, h3lo, h3hi⟩ := soilStage3_snd req (by omega)
  obtain ⟨h4head, h4lo, h4hi⟩ := soilStage4_snd req (by omega)
  obtain ⟨h5head, h5lo, h5hi⟩ := soilStage5_snd req (by omega)
  have hfb : (soilFallback req).2 = (soilStage5 req).2 := rfl
  rw [hfb, h5head, h4head, h3head, h2head]
  exact ⟨h1head, by omega, by omega⟩

/-- C2 counterexample: when extraction succeeds and the decoded object
carries health_score 150 (a perfectly valid model output), the soil record
that is persisted and returned stores the unclamped 150, outside [0, 100];
only the fallback path clamps. -/
theorem scores_in_range_cex :
    ((analyze_soil parseScore150 soilReqDemo
        ("\x7b\"health_score\": 150\x7d".data) 0).1.map
      SoilAnalysis.health_score) = [150] ∧
    ¬ ((150 : ℚ) ≤ 100) := by
  exact ⟨rfl, by norm_num⟩

/-- C2 (amended): on the extraction-failure path the soil health score is
clamped into [0, 100] and the yield confidence is the constant 70, hence both
persisted scores are in range; on the extraction-success path the extracted
value is stored without clamping, so the in-range law holds only for the
fallback path. -/
theorem fallback_scores_in_range (parse : JDecoder) (sreq : SoilRequest)
    (yreq : YieldRequest) (w : WeatherData) (t : List Char) (now : ℤ)
    (hfail : extract parse t = none) :
    (∀ a ∈ (analyze_soil parse sreq t now).1,
        0 ≤ a.health_score ∧ a.health_score ≤ 100) ∧
    (∀ p ∈ (predict_yield parse yreq (.ok w) t now).1,
        0 ≤ p.confidence_score ∧ p.confidence_score ≤ 100) := by
  constructor
  · intro a ha
    rw [analyze_soil_fallback parse sreq t now hfail] at ha
    simp only [List.mem_singleton] at ha
    subst ha
    exact soilFallback_score_bounds sreq
  · intro p hp
    rw [predict_yield_fallback parse yreq w t now hfail] at hp
    simp only [List.mem_singleton] at hp
    subst hp
    constructor <;> norm_num [yield_fallback]

/-- Witness: the amended clamping law at a concrete failing decode. -/
theorem fallback_scores_in_range_witness :
    (∀ a ∈ (analyze_soil parseNone soilReqDemo ("garbled".data) 0).1,
        0 ≤ a.health_score ∧ a.health_score ≤ 100) ∧
    (∀ p ∈ (predict_yield parseNone yieldReqDemo (.ok weatherDemo)
        ("garbled".data) 0).1,
        0 ≤ p.confidence_score ∧ p.confidence_score ≤ 100) :=
  fallback_scores_in_range parseNone soilReqDemo yieldReqDemo weatherDemo
    ("garbled".data) 0 rfl

/-- C3: a model output built of a prelude, the fence-open marker, a payload
whose stripped text strictly decodes to v, the close marker and a trailer —
with the first marker occurrences where this shape puts them — extracts
exactly v; and whenever the decoded candidate is not valid JSON, the
crop-suggestions endpoint takes the fallback branch and returns the canned
suggestion instead of raising. -/
theorem extractor_roundtrip (parse : JDecoder) (location : String)
    (w : WeatherData) (pre payload post : List Char) (v : JsonVal)
    (hopen : pyFind (pre ++ fenceOpen ++ payload ++ fenceClose ++ post) fenceOpen
      = (pre.length : ℤ))
    (hclose : pyFindFrom (pre ++ fenceOpen ++ payload ++ fenceClose ++ post)
      fenceClose (pre.length + 7) = ((pre.length + 7 + payload.length : ℕ) : ℤ))
    (hparse : parse (pyStrip payload) = some v) :
    extract parse (pre ++ fenceOpen ++ payload ++ fenceClose ++ post) = some v ∧
    ∀ t : List Char, parse (extractCandidate t) = none →
      get_crop_suggestions parse location (.ok w) t =
        ([], .ok [fallbackSuggestion location w.description (extractCandidate t)]) := by
  constructor
  · rw [extract, extractCandidate_fenced pre payload post hopen hclose, hparse]
  · intro t hfail
    exact crop_suggestions_fallback parse location w t hfail

/-- Witness: the extractor round trip at a concrete fenced model output. -/
theorem extractor_roundtrip_witness :
    extract parseDemoA (("Sure: ".data) ++ fenceOpen ++ (" \x7b\"a\": 1\x7d ".data)
        ++ fenceClose ++ (" done".data)) = some (.obj [("a", .num 1)]) ∧
    ∀ t : List Char, parseDemoA (extractCandidate t) = none →
      get_crop_suggestions parseDemoA ("Delhi") (.ok weatherDemo) t =
        ([], .ok [fallbackSuggestion ("Delhi") weatherDemo.description
          (extractCandidate t)]) :=
  extractor_roundtrip parseDemoA ("Delhi") weatherDemo ("Sure: ".data)
    (" \x7b\"a\": 1\x7d ".data) (" done".data) (.obj [("a", .num 1)])
    (by decide) (by decide) rfl

/-- C4 (the code at its failing input): the market-prices endpoint never
returns a commodity — for every sampled fluctuation the very first record
construction passes the keyword current_price while the declared required
fields current_price_usd and current_price_inr are absent, so pydantic
raises, the endpoint answers 500, and nothing is returned or persisted. -/
theorem market_prices_always_500 (fluct : String → ℚ) :
    get_market_prices fluct =
      ([], .error ⟨500, "Error fetching market prices: ValidationError"⟩) := rfl

/-- C5 counterexample: a crop-suggestions call whose extraction fails returns
the canned fallback suggestion as its result, yet inserts nothing into the
store — the fallback record is not persisted. -/
theorem fallback_not_persisted_cex :
    (get_crop_suggestions parseNone ("Delhi") (.ok weatherDemo)
      ("not json".data)).1 = [] ∧
    (get_crop_suggestions parseNone ("Delhi") (.ok weatherDemo)
      ("not json".data)).2 =
      .ok [fallbackSuggestion ("Delhi") ("clear sky") ("not json".data)] := by
  exact ⟨rfl, rfl⟩

/-- C5 (amended): on extraction failure the yield-prediction and
soil-analysis endpoints persist exactly the record they return, but the
crop-suggestions endpoint persists nothing and merely returns its fallback
suggestion; on extraction success crop-suggestions persists exactly the
parsed suggestions it returns. -/
theorem persistence_by_endpoint (parse : JDecoder) (location : String)
    (w : WeatherData) (yreq : YieldRequest) (sreq : SoilRequest)
    (t : List Char) (now : ℤ) (hfail : extract parse t = none) :
    (∃ r, predict_yield parse yreq (.ok w) t now = ([r], .ok r)) ∧
    (∃ r, analyze_soil parse sreq t now = ([r], .ok r)) ∧
    (get_crop_suggestions parse location (.ok w) t).1 = [] ∧
    (get_crop_suggestions parse location (.ok w) t).2 =
      .ok [fallbackSuggestion location w.description (extractCandidate t)] ∧
    ∀ (t2 : List Char) (items : List JsonVal) (ss : List CropSuggestion),
      extract parse t2 = some (.arr items) →
      items.mapM (suggOfItem location w.description) = .ok ss →
      get_crop_suggestions parse location (.ok w) t2 = (ss, .ok ss) := by
  refine ⟨⟨_, predict_yield_fallback parse yreq w t now hfail⟩,
    ⟨_, analyze_soil_fallback parse sreq t now hfail⟩, ?_, ?_, ?_⟩
  · rw [crop_suggestions_fallback parse location w t hfail]
  · rw [crop_suggestions_fallback parse location w t hfail]
  · intro t2 items ss hsucc hmap
    unfold get_crop_suggestions
    rw [hsucc]
    dsimp only [iterItems]
    rw [suggestionsLoop_of_mapM location w.description items ss [] hmap]
    simp

/-- Witness: the per-endpoint persistence behaviour at a failing decode. -/
theorem persistence_by_endpoint_witness :
    (∃ r, predict_yield parseNone yieldReqDemo (.ok weatherDemo)
        ("mumbled".data) 0 = ([r], .ok r)) ∧
    (∃ r, analyze_soil parseNone soilReqDemo ("mumbled".data) 0 = ([r], .ok r)) ∧
    (get_crop_suggestions parseNone ("Mumbai") (.ok weatherDemo)
        ("mumbled".data)).1 = [] ∧
    (get_crop_suggestions parseNone ("Mumbai") (.ok weatherDemo)
        ("mumbled".data)).2 =
      .ok [fallbackSuggestion ("Mumbai") weatherDemo.description
        (extractCandidate ("mumbled".data))] ∧
    ∀ (t2 : List Char) (items : List JsonVal) (ss : List CropSuggestion),
      extract parseNone t2 = some (.arr items) →
      items.mapM (suggOfItem ("Mumbai") weatherDemo.description) = .ok ss →
      get_crop_suggestions parseNone ("Mumbai") (.ok weatherDemo) t2 =
        (ss, .ok ss) :=
  persistence_by_endpoint parseNone ("Mumbai") weatherDemo yieldReqDemo
    soilReqDemo ("mumbled".data) 0 rfl

/-- C6: in the yield-prediction fallback path the computed total yield is the
per-crop base yield from the lookup table (default 2.5 for unknown crops)
times the requested field size and the confidence is 70.0; the stored record
rounds that total to two decimals, and for corn with field size 10 the stored
total is exactly 32.0. -/
theorem yield_fallback_table (parse : JDecoder) (req : YieldRequest)
    (w : WeatherData) (t : List Char) (now : ℤ)
    (hfail : extract parse t = none) :
    yield_fallback req.crop_name req.field_size =
      (((base_yields.lookup (pyLower req.crop_name)).getD 2.5) * req.field_size,
        70) ∧
    predict_yield parse req (.ok w) t now =
      ([⟨req.crop_name, pyRound2 (yield_fallback req.crop_name req.field_size).1,
          70, req.location, now⟩],
        .ok ⟨req.crop_name,
          pyRound2 (yield_fallback req.crop_name req.field_size).1,
          70, req.location, now⟩) ∧
    predict_yield parse ⟨"corn", req.location, 10⟩ (.ok w) t now =
      ([⟨"corn", 32, 70, req.location, now⟩],
        .ok ⟨"corn", 32, 70, req.location, now⟩) := by
  refine ⟨rfl, predict_yield_fallback parse req w t now hfail, ?_⟩
  rw [predict_yield_fallback parse ⟨"corn", req.location, 10⟩ w t now hfail]
  have hy : yield_fallback ("corn") 10 = (32, 70) := by
    have hl : base_yields.lookup (pyLower ("corn")) = some 3.2 := rfl
    simp [yield_fallback, hl]
    norm_num
  rw [hy]
  have hr : pyRound2 32 = 32 := by norm_num [pyRound2, roundHalfEven]
  rw [hr]

/-- Witness: the yield fallback at a concrete failing decode. -/
theorem yield_fallback_table_witness :
    yield_fallback yieldReqDemo.crop_name yieldReqDemo.field_size =
      (((base_yields.lookup (pyLower yieldReqDemo.crop_name)).getD 2.5) *
        yieldReqDemo.field_size, 70) ∧
    predict_yield parseNone yieldReqDemo (.ok weatherDemo) ("mumbled".data) 0 =
      ([⟨yieldReqDemo.crop_name,
          pyRound2 (yield_fallback yieldReqDemo.crop_name
            yieldReqDemo.field_size).1, 70, yieldReqDemo.location, 0⟩],
        .ok ⟨yieldReqDemo.crop_name,
          pyRound2 (yield_fallback yieldReqDemo.crop_name
            yieldReqDemo.field_size).1, 70, yieldReqDemo.location, 0⟩) ∧
    predict_yield parseNone ⟨"corn", yieldReqDemo.location, 10⟩ (.ok weatherDemo)
        ("mumbled".data) 0 =
      ([⟨"corn", 32, 70, yieldReqDemo.location, 0⟩],
        .ok ⟨"corn", 32, 70, yieldReqDemo.location, 0⟩) :=
  yield_fallback_table parseNone yieldReqDemo weatherDemo ("mumbled".data) 0 rfl

/-- C7 counterexample: on the output with a fence-open marker and no close
marker, the close search returns -1 and the slice keeps everything after the
marker except the final character; with a decoder accepting the array [1] the
extraction then succeeds on that truncated slice, while the candidate bounded
to end-of-string would not decode — so extraction is neither bounded to
end-of-string nor failing into the fallback. -/
theorem unmatched_fence_cex :
    pyFind tUnmatched fenceOpen ≠ -1 ∧
    pyFindFrom tUnmatched fenceClose ((pyFind tUnmatched fenceOpen + 7).toNat)
      = -1 ∧
    ¬ (extract parseBracket tUnmatched =
          parseBracket (pyStrip (pySlice tUnmatched
            (pyFind tUnmatched fenceOpen + 7) (tUnmatched.length : ℤ))) ∨
        extract parseBracket tUnmatched = none) := by
  refine ⟨by decide, by decide, ?_⟩
  have h1 : extract parseBracket tUnmatched = some (.arr [.num 1]) := rfl
  have h2 : parseBracket (pyStrip (pySlice tUnmatched
      (pyFind tUnmatched fenceOpen + 7) (tUnmatched.length : ℤ))) = none := rfl
  intro h
  rcases h with h | h
  · rw [h1, h2] at h
    exact Option.noConfusion h
  · rw [h1] at h
    exact Option.noConfusion h

/-- C7 (amended): with a fence-open marker whose close search fails, `find`
returns -1 and the Python slice therefore ends at length minus one, dropping
the final character; the stripped slice is decoded (decode failure selecting
the fallback), and nothing raises — extraction is a total function. -/
theorem unmatched_fence_behavior (parse : JDecoder) (t : List Char)
    (hopen : pyFind t fenceOpen ≠ -1)
    (hnoclose : pyFindFrom t fenceClose ((pyFind t fenceOpen + 7).toNat) = -1) :
    extract parse t =
      parse (pyStrip (pySlice t (pyFind t fenceOpen + 7)
        ((t.length : ℤ) - 1))) := by
  rw [extract]
  unfold extractCandidate
  rw [if_pos hopen]
  dsimp only
  rw [hnoclose]
  unfold pySlice
  rw [pySliceBound_neg_one]

/-- Witness: the unmatched-fence behaviour at a concrete output. -/
theorem unmatched_fence_behavior_witness :
    extract parseBracket ("```jsonXYZ".data) =
      parseBracket (pyStrip (pySlice ("```jsonXYZ".data)
        (pyFind ("```jsonXYZ".data) fenceOpen + 7)
        ((("```jsonXYZ".data).length : ℤ) - 1))) :=
  unmatched_fence_behavior parseBracket ("```jsonXYZ".data) (by decide) (by decide)

/-- C8: when the weather call fails — network error, or a non-200 upstream
status — the weather endpoint and both generators depending on it answer a
single generic 500 server error, return no partial result, and insert no
record into their collections. -/
theorem upstream_failure_no_partial (parse : JDecoder) (location : String)
    (yreq : YieldRequest) (e : HTTPError) (t : List Char) (now : ℤ)
    (netMsg : String) (p : WeatherPayload) (badStatus : Nat)
    (hbad : badStatus ≠ 200) :
    ((get_weather (.error netMsg) location).1 = [] ∧
      (get_weather (.error netMsg) location).2 =
        .error ⟨500, "Error fetching weather: " ++ netMsg⟩) ∧
    ((get_weather (.ok (badStatus, p)) location).1 = [] ∧
      (get_weather (.ok (badStatus, p)) location).2 =
        .error ⟨500, "Error fetching weather: " ++
          httpErrorStr ⟨400, "Weather data not found"⟩⟩) ∧
    ((get_crop_suggestions parse location (.error e) t).1 = [] ∧
      (get_crop_suggestions parse location (.error e) t).2 =
        .error ⟨500, "Error generating crop suggestions: " ++ httpErrorStr e⟩) ∧
    ((predict_yield parse yreq (.error e) t now).1 = [] ∧
      (predict_yield parse yreq (.error e) t now).2 =
        .error ⟨500, "Error predicting yield: " ++ httpErrorStr e⟩) := by
  refine ⟨⟨rfl, rfl⟩, ⟨?_, ?_⟩, ⟨rfl, rfl⟩, ⟨rfl, rfl⟩⟩
  · simp [get_weather, hbad]
  · simp [get_weather, hbad]

/-- Witness: upstream failures at concrete inputs (status 404 and a network
timeout). -/
theorem upstream_failure_no_partial_witness :
    ((get_weather (.error ("timeout")) ("Delhi")).1 = [] ∧
      (get_weather (.error ("timeout")) ("Delhi")).2 =
        .error ⟨500, "Error fetching weather: " ++ "timeout"⟩) ∧
    ((get_weather (.ok (404, ⟨30, 60, "clear sky"⟩)) ("Delhi")).1 = [] ∧
      (get_weather (.ok (404, ⟨30, 60, "clear sky"⟩)) ("Delhi")).2 =
        .error ⟨500, "Error fetching weather: " ++
          httpErrorStr ⟨400, "Weather data not found"⟩⟩) ∧
    ((get_crop_suggestions parseNone ("Delhi") (.error ⟨500, "boom"⟩)
        ("x".data)).1 = [] ∧
      (get_crop_suggestions parseNone ("Delhi") (.error ⟨500, "boom"⟩)
        ("x".data)).2 =
        .error ⟨500, "Error generating crop suggestions: " ++
          httpErrorStr ⟨500, "boom"⟩⟩) ∧
    ((predict_yield parseNone yieldReqDemo (.error ⟨500, "boom"⟩)
        ("x".data) 0).1 = [] ∧
      (predict_yield parseNone yieldReqDemo (.error ⟨500, "boom"⟩)
        ("x".data) 0).2 =
        .error ⟨500, "Error predicting yield: " ++ httpErrorStr ⟨500, "boom"⟩⟩) :=
  upstream_failure_no_partial parseNone ("Delhi") yieldReqDemo ⟨500, "boom"⟩
    ("x".data) 0 ("timeout") ⟨30, 60, "clear sky"⟩ 404 (by decide)

/-- C9: recent-queries returns at most the 10 most recent Q&A records in
descending timestamp order, and yield-history and soil-history each return at
most the 20 most recent records in descending date order: every result is
bounded, sorted descending, and together with the unreturned rest permutes
the store while dominating it keywise. -/
theorem history_endpoints_limit_sort (qs : List AIQuery)
    (ys : List YieldPrediction) (ss : List SoilAnalysis) :
    ((get_recent_queries qs).length ≤ 10 ∧
      (get_recent_queries qs).Pairwise (fun a b => b.timestamp ≤ a.timestamp) ∧
      ∃ rest, (get_recent_queries qs ++ rest).Perm qs ∧
        ∀ y ∈ rest, ∀ x ∈ get_recent_queries qs, y.timestamp ≤ x.timestamp) ∧
    ((get_yield_history ys).length ≤ 20 ∧
      (get_yield_history ys).Pairwise
        (fun a b => b.prediction_date ≤ a.prediction_date) ∧
      ∃ rest, (get_yield_history ys ++ rest).Perm ys ∧
        ∀ y ∈ rest, ∀ x ∈ get_yield_history ys,
          y.prediction_date ≤ x.prediction_date) ∧
    ((get_soil_history ss).length ≤ 20 ∧
      (get_soil_history ss).Pairwise
        (fun a b => b.analysis_date ≤ a.analysis_date) ∧
      ∃ rest, (get_soil_history ss ++ rest).Perm ss ∧
        ∀ y ∈ rest, ∀ x ∈ get_soil_history ss,
          y.analysis_date ≤ x.analysis_date) :=
  ⟨mongoFindSortDescLimit_spec AIQuery.timestamp qs 10,
    mongoFindSortDescLimit_spec YieldPrediction.prediction_date ys 20,
    mongoFindSortDescLimit_spec SoilAnalysis.analysis_date ss 20⟩

end Agri
